import Mathlib

/-!
Shallow embedding of the order-creation core of the marketplace backend
(customer service, `POST /orders` handler `create_order`, together with the
catalog / shop / order-store lookups it uses).

Modelling conventions:
* Money fields are embedded as exact rationals (the Python source stores them
  as `float`; the numerical-representation question is treated separately).
* `quantity` and `stock_quantity` are embedded as integers, mirroring the
  unconstrained pydantic `int` fields of the source (`CartItem.quantity`,
  `ProductVariant.stock_quantity` carry no positivity bound).
* `HTTPException(status_code, detail)` raised by the handler is embedded as an
  error value `HTTPError`; the handler body becomes a pure function returning
  `Except HTTPError Order` together with the list of orders passed to the
  Order Store's create operation (`db_service.create_order` / `put_item`)
  during the call, in call order.
* `uuid.uuid4()` and the current user are nondeterministic inputs of the
  handler; they are passed as explicit parameters (`uuids` supplies the
  item identifiers generated inside the cart loop, `orderUuid` the one used
  for the order identifier, `customer_id` the authenticated user's id).
* Structure fields never read by the order-creation path (e.g. `sku`, `mrp`,
  `is_active`, `weight`, timestamps, `merchant_notes`, `estimated_delivery`)
  are omitted from the embedded records.
* The Python loop accumulates `subtotal` left-to-right over the cart; the
  embedding folds on the right, which yields the same rational value since
  rational addition is associative and commutative and the start value is 0.
-/

namespace Marketplace

/-- Delivery mode of an order (`DeliveryType` in `shared/models/base.py`). -/
inductive DeliveryType where
  | delivery
  | pickup
deriving DecidableEq

/-- Order status (`OrderStatus` in `shared/models/base.py`). -/
inductive OrderStatus where
  | pending
  | accepted
  | preparing
  | out_for_delivery
  | delivered
  | cancelled
deriving DecidableEq

/-- Shop approval status (`ShopStatus` in `shared/models/base.py`). -/
inductive ShopStatus where
  | pending_approval
  | approved
  | rejected
  | suspended
deriving DecidableEq

/-- A product variant as read by the order path: identifier, display name,
selling price and stock (`ProductVariant` in `shared/models/base.py`). -/
structure ProductVariant where
  variant_id : String
  name : String
  selling_price : ℚ
  stock_quantity : ℤ
deriving DecidableEq

/-- A catalog product as read by the order path
(`Product` in `shared/models/base.py`). -/
structure Product where
  product_id : String
  shop_id : String
  name : String
  variants : List ProductVariant
deriving DecidableEq

/-- A shop as read by the order path (`Shop` in `shared/models/base.py`). -/
structure Shop where
  shop_id : String
  status : ShopStatus
  accepting_orders : Bool
  delivery_fee : ℚ
deriving DecidableEq

/-- One submitted cart line (`CartItem` in `customer_api/main.py`; the
pydantic model places no positivity constraint on `quantity`). -/
structure CartItem where
  product_id : String
  variant_id : String
  quantity : ℤ
deriving DecidableEq

/-- The order-creation request body (`OrderCreate` in `customer_api/main.py`). -/
structure OrderCreate where
  shop_id : String
  items : List CartItem
  delivery_type : DeliveryType
  delivery_address : Option String
  customer_notes : Option String
deriving DecidableEq

/-- A priced order line as built inside the cart loop of `create_order`
(`OrderItem` in `shared/models/base.py`). -/
structure OrderItem where
  item_id : String
  product_id : String
  variant_id : String
  product_name : String
  variant_name : String
  quantity : ℤ
  unit_price : ℚ
  total_price : ℚ
deriving DecidableEq

/-- The persisted order aggregate (`Order` in `shared/models/base.py`). -/
structure Order where
  order_id : String
  customer_id : String
  shop_id : String
  items : List OrderItem
  subtotal : ℚ
  delivery_fee : ℚ
  total_amount : ℚ
  status : OrderStatus
  delivery_type : DeliveryType
  delivery_address : Option String
  customer_notes : Option String
deriving DecidableEq

/-- The read-side state of the record store: the shops and products tables
(`DynamoDBService` in `shared/database/dynamodb.py`). The orders table only
receives writes during order creation; those writes are reported as the
second component of `create_order`'s result. -/
structure DB where
  shops : List Shop
  products : List Product
deriving DecidableEq

/-- `db_service.get_shop`: look a shop up by its key. -/
def DB.get_shop (db : DB) (shop_id : String) : Option Shop :=
  db.shops.find? (fun s => s.shop_id == shop_id)

/-- `db_service.get_product`: look a product up by its key. -/
def DB.get_product (db : DB) (product_id : String) : Option Product :=
  db.products.find? (fun p => p.product_id == product_id)

/-- An `HTTPException` as raised by the handler: status code and detail. -/
structure HTTPError where
  status_code : ℕ
  detail : String
deriving DecidableEq

/-- The `if not x: raise HTTPException(...)` idiom of the handler: a failed
lookup becomes the given error, a successful one proceeds. -/
def ofOption (o : Option α) (e : HTTPError) : Except HTTPError α :=
  match o with
  | none => .error e
  | some a => .ok a

/-- One iteration of the cart loop in `create_order`: resolve the product,
find the variant inside it, check stock, and build the priced order line
(`customer_api/main.py`, the body of `for cart_item in order_data.items`).
`u` is the `uuid.uuid4()` value used for the generated `item_id`. -/
def processItem (db : DB) (u : String) (c : CartItem) : Except HTTPError OrderItem := do
  let product ← ofOption (db.get_product c.product_id)
    ⟨404, "Product " ++ c.product_id ++ " not found"⟩
  let variant ← ofOption (product.variants.find? (fun v => v.variant_id == c.variant_id))
    ⟨404, "Variant " ++ c.variant_id ++ " not found"⟩
  if variant.stock_quantity < c.quantity then
    .error ⟨400, "Insufficient stock for " ++ product.name⟩
  else
    .ok { item_id := u
          product_id := c.product_id
          variant_id := c.variant_id
          product_name := product.name
          variant_name := variant.name
          quantity := c.quantity
          unit_price := variant.selling_price
          total_price := variant.selling_price * (c.quantity : ℚ) }

/-- The cart loop of `create_order`: process the lines in submission order,
stopping at the first failure, and return the built order lines together
with the accumulated subtotal. `uuids i` supplies the `uuid.uuid4()` value
for the `i`-th line's `item_id`. -/
def processItems (db : DB) (uuids : ℕ → String) :
    ℕ → List CartItem → Except HTTPError (List OrderItem × ℚ)
  | _, [] => .ok ([], 0)
  | i, c :: rest => do
    let item ← processItem db (uuids i) c
    let (items, s) ← processItems db uuids (i + 1) rest
    .ok (item :: items, item.total_price + s)

/-- The validation and pricing body of the `POST /orders` handler, up to and
including construction of the order aggregate (every step of `create_order`
in `customer_api/main.py` before the final `db_service.create_order` call).
The source generates the order identifier as `"ORD"` followed by the first
eight characters of a fresh UUID uppercased; that nondeterministically
generated string enters the embedding as the parameter `order_id`. -/
def buildOrderAggregate (db : DB) (customer_id : String) (uuids : ℕ → String)
    (order_id : String) (req : OrderCreate) : Except HTTPError Order := do
  let shop ← ofOption (db.get_shop req.shop_id) ⟨404, "Shop not found"⟩
  if shop.status ≠ ShopStatus.approved then
    .error ⟨404, "Shop not found"⟩
  else if shop.accepting_orders = false then
    .error ⟨400, "Shop is not accepting orders"⟩
  else do
    let (items, subtotal) ← processItems db uuids 0 req.items
    let delivery_fee : ℚ :=
      if req.delivery_type = DeliveryType.delivery then shop.delivery_fee else 0
    let total_amount := subtotal + delivery_fee
    .ok { order_id := order_id
          customer_id := customer_id
          shop_id := req.shop_id
          items := items
          subtotal := subtotal
          delivery_fee := delivery_fee
          total_amount := total_amount
          status := OrderStatus.pending
          delivery_type := req.delivery_type
          delivery_address := req.delivery_address
          customer_notes := req.customer_notes }

/-- The final step of the handler: a successfully built aggregate — and only
such an aggregate — is handed to the Order Store's create operation
(`db_service.create_order`, a single `put_item`); an `HTTPException` raised
earlier propagates with nothing written. The second component records the
orders passed to the store's create operation, in call order. -/
def emit (r : Except HTTPError Order) : Except HTTPError Order × List Order :=
  match r with
  | .error e => (.error e, [])
  | .ok o => (.ok o, [o])

/-- The `POST /orders` handler `create_order` in `customer_api/main.py`:
build the aggregate, then persist it. Returns the HTTP-level outcome and
the list of order aggregates written to the Order Store during the call. -/
def create_order (db : DB) (customer_id : String) (uuids : ℕ → String)
    (order_id : String) (req : OrderCreate) :
    Except HTTPError Order × List Order :=
  emit (buildOrderAggregate db customer_id uuids order_id req)

/-- The shop-level preconditions of `create_order`: the shop exists, is
approved, and is accepting orders. -/
def shopOrderable (db : DB) (shop_id : String) : Bool :=
  match db.get_shop shop_id with
  | none => false
  | some shop => decide (shop.status = ShopStatus.approved) && shop.accepting_orders

/-- A cart line is valid against the catalog: its product and variant resolve
and the requested quantity is within stock, so the cart loop accepts it
(the item identifier plays no role in acceptance). -/
def lineOk (db : DB) (c : CartItem) : Bool :=
  match processItem db "" c with
  | .ok _ => true
  | .error _ => false

/-- Variant resolution as the order path performs it: product lookup by key,
then first variant with the matching identifier. -/
def DB.get_variant (db : DB) (product_id variant_id : String) : Option ProductVariant :=
  match db.get_product product_id with
  | none => none
  | some product => product.variants.find? (fun v => v.variant_id == variant_id)

/-! Concrete catalog states used to instantiate the theorems below. `exDB`
realises the worked example of the spec: a shop with flat delivery fee 50,
a variant priced 120 and a variant priced 60, both amply stocked. -/

/-- An approved shop, accepting orders, with flat delivery fee 50. -/
def exShop : Shop := ⟨"s1", ShopStatus.approved, true, 50⟩

/-- Product holding variant A: selling price 120, stock 10. -/
def exProductA : Product := ⟨"p1", "s1", "Apples", [⟨"v1", "1kg", 120, 10⟩]⟩

/-- Product holding variant B: selling price 60, stock 10. -/
def exProductB : Product := ⟨"p2", "s1", "Bananas", [⟨"v2", "Large", 60, 10⟩]⟩

/-- Store state for the spec's worked pricing example. -/
def exDB : DB := ⟨[exShop], [exProductA, exProductB]⟩

/-- A fixed item-identifier supply standing in for `uuid.uuid4()`. -/
def exUuids : ℕ → String := fun _ => "itm"

/-- The worked example's cart in DELIVERY mode: variant A with quantity 2,
variant B with quantity 1. -/
def exReqDelivery : OrderCreate :=
  ⟨"s1", [⟨"p1", "v1", 2⟩, ⟨"p2", "v2", 1⟩], DeliveryType.delivery, some "addr", none⟩

/-- The order `create_order` builds from `exReqDelivery` on `exDB`:
subtotal 300, delivery fee 50, total 350. -/
def exOrder : Order :=
  { order_id := "ORDAB12CD34"
    customer_id := "cust1"
    shop_id := "s1"
    items :=
      [ ⟨"itm", "p1", "v1", "Apples", "1kg", 2, 120, 240⟩,
        ⟨"itm", "p2", "v2", "Bananas", "Large", 1, 60, 60⟩ ]
    subtotal := 300
    delivery_fee := 50
    total_amount := 350
    status := OrderStatus.pending
    delivery_type := DeliveryType.delivery
    delivery_address := some "addr"
    customer_notes := none }

/-- An order-creation request with an empty cart, in PICKUP mode. -/
def exReqEmpty : OrderCreate := ⟨"s1", [], DeliveryType.pickup, none, none⟩

/-- The zero-total order the handler builds from the empty cart. -/
def exOrderEmpty : Order :=
  ⟨"ORDEMPTY01", "cust1", "s1", [], 0, 0, 0, OrderStatus.pending,
    DeliveryType.pickup, none, none⟩

/-- Variant A with only 5 units in stock. -/
def exVariant5 : ProductVariant := ⟨"v1", "1kg", 120, 5⟩

/-- Product holding the 5-unit variant. -/
def exProduct5 : Product := ⟨"p1", "s1", "Apples", [exVariant5]⟩

/-- Store state whose only variant has stock 5. -/
def exDB5 : DB := ⟨[exShop], [exProduct5]⟩

/-- Product holding a 2-unit variant at the same price. -/
def exProduct2 : Product := ⟨"p1", "s1", "Apples", [⟨"v1", "1kg", 120, 2⟩]⟩

/-- Store state whose only variant has stock 2. -/
def exDB2 : DB := ⟨[exShop], [exProduct2]⟩

/-- A cart requesting 6 units of variant A. -/
def exReq6 : OrderCreate := ⟨"s1", [⟨"p1", "v1", 6⟩], DeliveryType.pickup, none, none⟩

/-- A cart requesting 7 units of variant A. -/
def exReq7 : OrderCreate := ⟨"s1", [⟨"p1", "v1", 7⟩], DeliveryType.pickup, none, none⟩

/-- A two-line cart whose first line is valid and whose second line
references the nonexistent product `p9`. -/
def exReqMissing : OrderCreate :=
  ⟨"s1", [⟨"p1", "v1", 1⟩, ⟨"p9", "v1", 1⟩], DeliveryType.pickup, none, none⟩

/-- A cart whose single line requests quantity 0. -/
def exReqZero : OrderCreate := ⟨"s1", [⟨"p1", "v1", 0⟩], DeliveryType.pickup, none, none⟩

/-- A cart whose single line requests quantity -2. -/
def exReqNeg : OrderCreate := ⟨"s1", [⟨"p1", "v1", -2⟩], DeliveryType.pickup, none, none⟩

/-- The zero-quantity order the handler builds from `exReqZero`. -/
def exOrderZero : Order :=
  ⟨"ORDZERO001", "cust1", "s1", [⟨"itm", "p1", "v1", "Apples", "1kg", 0, 120, 0⟩],
    0, 0, 0, OrderStatus.pending, DeliveryType.pickup, none, none⟩

/-- The negative-total order the handler builds from `exReqNeg`. -/
def exOrderNeg : Order :=
  ⟨"ORDNEG0001", "cust1", "s1", [⟨"itm", "p1", "v1", "Apples", "1kg", -2, 120, -240⟩],
    -240, 0, -240, OrderStatus.pending, DeliveryType.pickup, none, none⟩

/-- A shop still pending approval. -/
def exShopPending : Shop := ⟨"s2", ShopStatus.pending_approval, true, 50⟩

/-- An approved shop that is not accepting orders. -/
def exShopClosed : Shop := ⟨"s3", ShopStatus.approved, false, 50⟩

/-- Store state carrying the approved, pending and closed shops. -/
def exDBShops : DB := ⟨[exShop, exShopPending, exShopClosed], [exProductA, exProductB]⟩

/-- A cart requesting 3 units of variant A. -/
def exReq3 : OrderCreate := ⟨"s1", [⟨"p1", "v1", 3⟩], DeliveryType.pickup, none, none⟩

/-- The order built from `exReq3` for customer A. -/
def exOrder3A : Order :=
  ⟨"ORDA000001", "custA", "s1", [⟨"itm", "p1", "v1", "Apples", "1kg", 3, 120, 360⟩],
    360, 0, 360, OrderStatus.pending, DeliveryType.pickup, none, none⟩

/-- The order built from `exReq3` for customer B. -/
def exOrder3B : Order :=
  ⟨"ORDB000001", "custB", "s1", [⟨"itm", "p1", "v1", "Apples", "1kg", 3, 120, 360⟩],
    360, 0, 360, OrderStatus.pending, DeliveryType.pickup, none, none⟩

/-- A cart with two lines for the same variant, 3 units each. -/
def exReqDup : OrderCreate :=
  ⟨"s1", [⟨"p1", "v1", 3⟩, ⟨"p1", "v1", 3⟩], DeliveryType.pickup, none, none⟩

/-- The order built from `exReqDup`: 6 units of the 5-stock variant. -/
def exOrderDup : Order :=
  ⟨"ORDDUP0001", "cust1", "s1",
    [⟨"itm", "p1", "v1", "Apples", "1kg", 3, 120, 360⟩,
     ⟨"itm", "p1", "v1", "Apples", "1kg", 3, 120, 360⟩],
    720, 0, 720, OrderStatus.pending, DeliveryType.pickup, none, none⟩

/-! Reduction lemmas for the embedded handler combinators. -/

@[simp] theorem ofOption_none (e : HTTPError) :
    ofOption (none : Option α) e = .error e := rfl

@[simp] theorem ofOption_some (a : α) (e : HTTPError) :
    ofOption (some a) e = .ok a := rfl

@[simp] theorem except_bind_ok (a : α) (f : α → Except HTTPError β) :
    (Except.ok a : Except HTTPError α) >>= f = f a := rfl

@[simp] theorem except_bind_error (e : HTTPError) (f : α → Except HTTPError β) :
    (Except.error e : Except HTTPError α) >>= f = Except.error e := rfl

@[simp] theorem emit_error (e : HTTPError) : emit (.error e) = (.error e, []) := rfl

@[simp] theorem emit_ok (o : Order) : emit (.ok o) = (.ok o, [o]) := rfl

/-! Characterisations of the cart loop. -/

/-- A successful `processItem` call resolves the product and the variant and
returns the priced line frozen from the variant's current selling price. -/
theorem processItem_ok {db : DB} {u : String} {c : CartItem} {it : OrderItem}
    (h : processItem db u c = .ok it) :
    ∃ p v, db.get_product c.product_id = some p ∧
      p.variants.find? (fun w => w.variant_id == c.variant_id) = some v ∧
      ¬ v.stock_quantity < c.quantity ∧
      it = ⟨u, c.product_id, c.variant_id, p.name, v.name, c.quantity,
            v.selling_price, v.selling_price * (c.quantity : ℚ)⟩ := by
  unfold processItem at h
  cases hp : db.get_product c.product_id with
  | none => rw [hp, ofOption_none, except_bind_error] at h; exact absurd h (by simp)
  | some p =>
    rw [hp, ofOption_some, except_bind_ok] at h
    cases hv : p.variants.find? (fun w => w.variant_id == c.variant_id) with
    | none => rw [hv, ofOption_none, except_bind_error] at h; exact absurd h (by simp)
    | some v =>
      rw [hv, ofOption_some, except_bind_ok] at h
      by_cases hq : v.stock_quantity < c.quantity
      · rw [if_pos hq] at h; exact absurd h (by simp)
      · rw [if_neg hq] at h
        refine ⟨p, v, ?_, ?_, ?_, ?_⟩
        · exact rfl
        · exact hv
        · exact hq
        · exact (Except.ok.injEq _ _).mp h.symm

/-- A successful run of the cart loop returns the accumulated subtotal as the
sum of the line totals, keeps the lines in cart submission order, and prices
every line from the catalog variant it references. -/
theorem processItems_ok {db : DB} {uuids : ℕ → String} :
    ∀ {cs : List CartItem} {i : ℕ} {items : List OrderItem} {s : ℚ},
      processItems db uuids i cs = .ok (items, s) →
      s = (items.map OrderItem.total_price).sum ∧
      items.map (fun it => (it.product_id, it.variant_id, it.quantity))
        = cs.map (fun c => (c.product_id, c.variant_id, c.quantity)) ∧
      ∀ it ∈ items, ∃ v, db.get_variant it.product_id it.variant_id = some v ∧
        it.unit_price = v.selling_price ∧
        it.total_price = v.selling_price * (it.quantity : ℚ) ∧
        it.quantity ≤ v.stock_quantity := by
  intro cs
  induction cs with
  | nil =>
    intro i items s h
    unfold processItems at h
    obtain ⟨rfl, rfl⟩ :  items = [] ∧ s = 0 := by
      constructor <;> · injection h with h'; cases h'; rfl
    exact ⟨by simp, by simp, by simp⟩
  | cons c rest ih =>
    intro i items s h
    unfold processItems at h
    cases hit : processItem db (uuids i) c with
    | error e => rw [hit, except_bind_error] at h; exact absurd h (by simp)
    | ok item =>
      rw [hit, except_bind_ok] at h
      cases hrest : processItems db uuids (i + 1) rest with
      | error e => rw [hrest, except_bind_error] at h; exact absurd h (by simp)
      | ok pr =>
        obtain ⟨items', s'⟩ := pr
        rw [hrest, except_bind_ok] at h
        obtain ⟨rfl, rfl⟩ : items = item :: items' ∧ s = item.total_price + s' := by
          constructor <;> · injection h with h'; cases h'; rfl
        obtain ⟨hsum, horder, hlines⟩ := ih hrest
        obtain ⟨p, v, hp, hv, hq, rfl⟩ := processItem_ok hit
        refine ⟨by simp [hsum], by simp [horder], ?_⟩
        intro it hmem
        rcases List.mem_cons.mp hmem with rfl | hmem'
        · exact ⟨v, by simp [DB.get_variant, hp, hv], rfl, rfl, not_lt.mp hq⟩
        · exact hlines it hmem'

/-- A successfully built aggregate records its inputs and satisfies the
pricing equations of the handler. -/
theorem buildOrderAggregate_ok {db : DB} {cid : String} {uuids : ℕ → String}
    {oid : String} {req : OrderCreate} {o : Order}
    (h : buildOrderAggregate db cid uuids oid req = .ok o) :
    ∃ shop items subtotal, db.get_shop req.shop_id = some shop ∧
      shop.status = ShopStatus.approved ∧ shop.accepting_orders = true ∧
      processItems db uuids 0 req.items = .ok (items, subtotal) ∧
      o = { order_id := oid, customer_id := cid, shop_id := req.shop_id,
            items := items, subtotal := subtotal,
            delivery_fee :=
              if req.delivery_type = DeliveryType.delivery then shop.delivery_fee else 0,
            total_amount := subtotal +
              if req.delivery_type = DeliveryType.delivery then shop.delivery_fee else 0,
            status := OrderStatus.pending, delivery_type := req.delivery_type,
            delivery_address := req.delivery_address,
            customer_notes := req.customer_notes } := by
  unfold buildOrderAggregate at h
  cases hs : db.get_shop req.shop_id with
  | none => rw [hs, ofOption_none, except_bind_error] at h; exact absurd h (by simp)
  | some shop =>
    rw [hs, ofOption_some, except_bind_ok] at h
    by_cases hst : shop.status = ShopStatus.approved
    · rw [if_neg (by simpa using hst)] at h
      by_cases hacc : shop.accepting_orders = false
      · rw [if_pos hacc] at h; exact absurd h (by simp)
      · rw [if_neg hacc] at h
        cases hitems : processItems db uuids 0 req.items with
        | error e => rw [hitems, except_bind_error] at h; exact absurd h (by simp)
        | ok pr =>
          obtain ⟨items, subtotal⟩ := pr
          rw [hitems, except_bind_ok] at h
          refine ⟨shop, items, subtotal, ?_, ?_, ?_, ?_, ?_⟩
          · exact rfl
          · exact hst
          · simpa using hacc
          · exact rfl
          · exact ((Except.ok.injEq _ _).mp h).symm
    · rw [if_pos (by simpa using hst)] at h; exact absurd h (by simp)

/-- Evaluation of the handler on the spec's worked DELIVERY example:
fee 50, variant A price 120 quantity 2, variant B price 60 quantity 1
gives subtotal 300, delivery fee 50, total 350, and one store write. -/
theorem exEval :
    create_order exDB "cust1" exUuids "ORDAB12CD34" exReqDelivery
      = (.ok exOrder, [exOrder]) := by
  have hs : exDB.get_shop "s1" = some exShop := by decide
  have hp1 : exDB.get_product "p1" = some exProductA := by decide
  have hp2 : exDB.get_product "p2" = some exProductB := by decide
  have hv1 : exProductA.variants.find? (fun v => v.variant_id == "v1")
      = some ⟨"v1", "1kg", 120, 10⟩ := by decide
  have hv2 : exProductB.variants.find? (fun v => v.variant_id == "v2")
      = some ⟨"v2", "Large", 60, 10⟩ := by decide
  norm_num [create_order, buildOrderAggregate, processItems, processItem,
    hs, hp1, hp2, hv1, hv2, exShop, exProductA, exProductB, exReqDelivery, exUuids, exOrder]

/-- Claim C1: every successfully persisted order aggregate prices each line
at the variant's selling price at build time multiplied by the requested
quantity, its subtotal is the sum of the line totals in cart submission
order, its delivery fee is the shop's flat fee for DELIVERY and zero for
PICKUP, and its total is subtotal plus delivery fee. -/
theorem C1_pricing_invariants (db : DB) (cid : String) (uuids : ℕ → String)
    (oid : String) (req : OrderCreate) (o : Order) (ws : List Order)
    (h : create_order db cid uuids oid req = (.ok o, ws)) :
    o.total_amount = o.subtotal + o.delivery_fee ∧
    o.subtotal = (o.items.map OrderItem.total_price).sum ∧
    o.items.map (fun it => (it.product_id, it.variant_id, it.quantity))
      = req.items.map (fun c => (c.product_id, c.variant_id, c.quantity)) ∧
    (∃ shop, db.get_shop req.shop_id = some shop ∧
      o.delivery_fee =
        if req.delivery_type = DeliveryType.delivery then shop.delivery_fee else 0) ∧
    ∀ it ∈ o.items, ∃ v, db.get_variant it.product_id it.variant_id = some v ∧
      it.unit_price = v.selling_price ∧
      it.total_price = v.selling_price * (it.quantity : ℚ) := by
  have hr : buildOrderAggregate db cid uuids oid req = .ok o := by
    unfold create_order at h
    cases hb : buildOrderAggregate db cid uuids oid req with
    | error e =>
      rw [hb, emit_error] at h
      exact absurd (congrArg Prod.fst h) (by simp)
    | ok o' =>
      rw [hb, emit_ok] at h
      exact congrArg Prod.fst h
  obtain ⟨shop, items, subtotal, hs, hst, hacc, hitems, ho⟩ := buildOrderAggregate_ok hr
  obtain ⟨hsum, horder, hlines⟩ := processItems_ok hitems
  subst ho
  refine ⟨rfl, by simpa using hsum, by simpa using horder, ⟨shop, hs, rfl⟩, ?_⟩
  intro it hmem
  obtain ⟨v, hv, h1, h2, h3⟩ := hlines it (by simpa using hmem)
  exact ⟨v, hv, h1, h2⟩

/-- Claim C1 witness: the theorem instantiated on the spec's worked example. -/
theorem C1_witness :
    exOrder.total_amount = exOrder.subtotal + exOrder.delivery_fee ∧
    exOrder.subtotal = (exOrder.items.map OrderItem.total_price).sum ∧
    exOrder.items.map (fun it => (it.product_id, it.variant_id, it.quantity))
      = exReqDelivery.items.map (fun c => (c.product_id, c.variant_id, c.quantity)) ∧
    (∃ shop, exDB.get_shop exReqDelivery.shop_id = some shop ∧
      exOrder.delivery_fee =
        if exReqDelivery.delivery_type = DeliveryType.delivery then shop.delivery_fee else 0) ∧
    ∀ it ∈ exOrder.items, ∃ v, exDB.get_variant it.product_id it.variant_id = some v ∧
      it.unit_price = v.selling_price ∧
      it.total_price = v.selling_price * (it.quantity : ℚ) :=
  C1_pricing_invariants exDB "cust1" exUuids "ORDAB12CD34" exReqDelivery exOrder
    [exOrder] exEval

/-- Claim C2: on any failing order-creation call the Order Store's create
operation is never invoked (no write at all), and on any successful call it
is invoked exactly once, with exactly the returned order. -/
theorem C2_store_written_only_on_success (db : DB) (cid : String)
    (uuids : ℕ → String) (oid : String) (req : OrderCreate) :
    (∀ e, (create_order db cid uuids oid req).1 = .error e →
      (create_order db cid uuids oid req).2 = []) ∧
    (∀ o, (create_order db cid uuids oid req).1 = .ok o →
      (create_order db cid uuids oid req).2 = [o]) := by
  unfold create_order
  cases buildOrderAggregate db cid uuids oid req with
  | error e => simp
  | ok o => simp

/-- Claim C2 witness: on the worked example the store receives exactly the
one successful order. -/
theorem C2_witness :
    (create_order exDB "cust1" exUuids "ORDAB12CD34" exReqDelivery).2 = [exOrder] :=
  (C2_store_written_only_on_success exDB "cust1" exUuids "ORDAB12CD34"
    exReqDelivery).2 exOrder (by simp [exEval])

/-! Error paths of the cart loop and the shop checks. -/

/-- A line whose product is missing fails with the product-not-found error,
for every generated item identifier. -/
theorem processItem_error_product {db : DB} {c : CartItem}
    (h : db.get_product c.product_id = none) (u : String) :
    processItem db u c = .error ⟨404, "Product " ++ c.product_id ++ " not found"⟩ := by
  unfold processItem
  rw [h, ofOption_none, except_bind_error]

/-- A line whose product resolves but whose variant is missing fails with
the variant-not-found error. -/
theorem processItem_error_variant {db : DB} {c : CartItem} {p : Product}
    (hp : db.get_product c.product_id = some p)
    (hv : p.variants.find? (fun w => w.variant_id == c.variant_id) = none)
    (u : String) :
    processItem db u c = .error ⟨404, "Variant " ++ c.variant_id ++ " not found"⟩ := by
  unfold processItem
  simp only [hp, ofOption_some, except_bind_ok]
  rw [hv, ofOption_none, except_bind_error]

/-- A line whose variant resolves with less stock than requested fails with
the insufficient-stock error, which carries the product name only. -/
theorem processItem_error_stock {db : DB} {c : CartItem} {p : Product}
    {v : ProductVariant}
    (hp : db.get_product c.product_id = some p)
    (hv : p.variants.find? (fun w => w.variant_id == c.variant_id) = some v)
    (hq : v.stock_quantity < c.quantity) (u : String) :
    processItem db u c = .error ⟨400, "Insufficient stock for " ++ p.name⟩ := by
  unfold processItem
  simp only [hp, ofOption_some, except_bind_ok, hv]
  rw [if_pos hq]

/-- A line that resolves with sufficient stock is accepted, and the built
order line is determined by the catalog data and the identifier. -/
theorem processItem_ok_of {db : DB} {c : CartItem} {p : Product}
    {v : ProductVariant}
    (hp : db.get_product c.product_id = some p)
    (hv : p.variants.find? (fun w => w.variant_id == c.variant_id) = some v)
    (hq : ¬ v.stock_quantity < c.quantity) (u : String) :
    processItem db u c = .ok ⟨u, c.product_id, c.variant_id, p.name, v.name,
      c.quantity, v.selling_price, v.selling_price * (c.quantity : ℚ)⟩ := by
  unfold processItem
  simp only [hp, ofOption_some, except_bind_ok, hv]
  rw [if_neg hq]

/-- A valid line (per `lineOk`) is accepted by `processItem` for every
generated item identifier. -/
theorem lineOk_processItem {db : DB} {c : CartItem}
    (h : lineOk db c = true) (u : String) :
    ∃ it, processItem db u c = .ok it := by
  unfold lineOk at h
  cases h0 : processItem db "" c with
  | error e => rw [h0] at h; simp at h
  | ok it0 =>
    obtain ⟨p, v, hp, hv, hq, rfl⟩ := processItem_ok h0
    exact ⟨_, processItem_ok_of hp hv hq u⟩

/-- A loop whose head fails with `e` (for every identifier) fails with `e`. -/
theorem processItems_error_head {db : DB} {uuids : ℕ → String} {c : CartItem}
    {rest : List CartItem} {e : HTTPError}
    (h : ∀ u, processItem db u c = .error e) (i : ℕ) :
    processItems db uuids i (c :: rest) = .error e := by
  unfold processItems
  rw [h (uuids i), except_bind_error]

/-- Valid lines before a failing suffix are processed through, and the
suffix's failure is the loop's failure. -/
theorem processItems_skip {db : DB} {uuids : ℕ → String} :
    ∀ pre : List CartItem, (∀ c ∈ pre, lineOk db c = true) →
      ∀ {cs : List CartItem} {e : HTTPError},
        (∀ i, processItems db uuids i cs = .error e) →
        ∀ i, processItems db uuids i (pre ++ cs) = .error e := by
  intro pre
  induction pre with
  | nil =>
    intro _ cs e h i
    simpa using h i
  | cons c pre' ih =>
    intro hok cs e h i
    obtain ⟨it, hit⟩ := lineOk_processItem (hok c (by simp)) (uuids i)
    show processItems db uuids i (c :: (pre' ++ cs)) = .error e
    unfold processItems
    rw [hit, except_bind_ok,
      ih (fun c' hc' => hok c' (by simp [hc'])) h (i + 1), except_bind_error]

/-- Failing the shop lookup fails the whole call with no store write. -/
theorem create_order_shop_missing {db : DB} {req : OrderCreate}
    (h : db.get_shop req.shop_id = none)
    (cid : String) (uuids : ℕ → String) (oid : String) :
    create_order db cid uuids oid req = (.error ⟨404, "Shop not found"⟩, []) := by
  unfold create_order buildOrderAggregate
  rw [h, ofOption_none, except_bind_error, emit_error]

/-- An unapproved shop fails the whole call with no store write. -/
theorem create_order_shop_unapproved {db : DB} {req : OrderCreate} {shop : Shop}
    (h : db.get_shop req.shop_id = some shop)
    (hst : shop.status ≠ ShopStatus.approved)
    (cid : String) (uuids : ℕ → String) (oid : String) :
    create_order db cid uuids oid req = (.error ⟨404, "Shop not found"⟩, []) := by
  unfold create_order buildOrderAggregate
  simp only [h, ofOption_some, except_bind_ok]
  rw [if_pos hst, emit_error]

/-- An approved shop that is not accepting orders fails the whole call with
no store write. -/
theorem create_order_shop_closed {db : DB} {req : OrderCreate} {shop : Shop}
    (h : db.get_shop req.shop_id = some shop)
    (hst : shop.status = ShopStatus.approved)
    (hacc : shop.accepting_orders = false)
    (cid : String) (uuids : ℕ → String) (oid : String) :
    create_order db cid uuids oid req
      = (.error ⟨400, "Shop is not accepting orders"⟩, []) := by
  unfold create_order buildOrderAggregate
  simp only [h, ofOption_some, except_bind_ok]
  rw [if_neg (by simp [hst]), if_pos hacc, emit_error]

/-- With an orderable shop, a failing cart loop fails the whole call with
the loop's error and no store write. -/
theorem create_order_items_error {db : DB} {req : OrderCreate} {shop : Shop}
    {uuids : ℕ → String} {e : HTTPError}
    (h : db.get_shop req.shop_id = some shop)
    (hst : shop.status = ShopStatus.approved)
    (hacc : shop.accepting_orders = true)
    (hitems : processItems db uuids 0 req.items = .error e)
    (cid : String) (oid : String) :
    create_order db cid uuids oid req = (.error e, []) := by
  unfold create_order buildOrderAggregate
  simp only [h, ofOption_some, except_bind_ok]
  rw [if_neg (by simp [hst]), if_neg (by simp [hacc]), hitems, except_bind_error,
    emit_error]

/-- Unpacking the shop-level precondition. -/
theorem shopOrderable_elim {db : DB} {sid : String}
    (h : shopOrderable db sid = true) :
    ∃ shop, db.get_shop sid = some shop ∧ shop.status = ShopStatus.approved ∧
      shop.accepting_orders = true := by
  unfold shopOrderable at h
  cases hs : db.get_shop sid with
  | none => rw [hs] at h; simp at h
  | some shop =>
    rw [hs] at h
    exact ⟨shop, rfl, by simpa using h⟩

/-- Claim C3: the claim says an empty cart always fails with the EmptyCart
error kind; the handler has no empty-cart check, and on an orderable shop it
accepts the empty cart and persists a zero-line, zero-total order. -/
theorem C3_empty_cart_accepted :
    create_order exDB "cust1" exUuids "ORDEMPTY01" exReqEmpty
      = (.ok exOrderEmpty, [exOrderEmpty]) ∧
    exOrderEmpty.items = [] ∧ exOrderEmpty.total_amount = 0 := by
  have hs : exDB.get_shop "s1" = some exShop := by decide
  refine ⟨?_, rfl, rfl⟩
  norm_num [create_order, buildOrderAggregate, processItems, hs, exShop,
    exReqEmpty, exOrderEmpty]
  decide

/-- Claim C6: the claim says a non-positive quantity fails with the
InvalidQuantity error kind; the handler never validates quantity, and it
accepts both a zero and a negative quantity, persisting a zero-quantity
line in one case and a negative-total order in the other. -/
theorem C6_nonpositive_quantity_accepted :
    create_order exDB "cust1" exUuids "ORDZERO001" exReqZero
      = (.ok exOrderZero, [exOrderZero]) ∧
    create_order exDB "cust1" exUuids "ORDNEG0001" exReqNeg
      = (.ok exOrderNeg, [exOrderNeg]) ∧
    exOrderZero.total_amount = 0 ∧ exOrderNeg.total_amount = -240 := by
  have hs : exDB.get_shop "s1" = some exShop := by decide
  have hp1 : exDB.get_product "p1" = some exProductA := by decide
  have hv1 : exProductA.variants.find? (fun v => v.variant_id == "v1")
      = some ⟨"v1", "1kg", 120, 10⟩ := by decide
  refine ⟨?_, ?_, rfl, rfl⟩
  · norm_num [create_order, buildOrderAggregate, processItems, processItem,
      hs, hp1, hv1, exShop, exProductA, exReqZero, exUuids, exOrderZero]
    decide
  · norm_num [create_order, buildOrderAggregate, processItems, processItem,
      hs, hp1, hv1, exShop, exProductA, exReqNeg, exUuids, exOrderNeg]
    decide

/-- Claim C7: the shop existence/orderable check runs before any per-line
work: whenever the shop is missing, unapproved, or not accepting orders,
the call fails with the corresponding shop error for every cart whatsoever,
and the Order Store is never written. -/
theorem C7_shop_check_first (db : DB) (cid : String) (uuids : ℕ → String)
    (oid : String) (sid : String) (items : List CartItem) (dt : DeliveryType)
    (da cn : Option String) :
    (db.get_shop sid = none →
      create_order db cid uuids oid ⟨sid, items, dt, da, cn⟩
        = (.error ⟨404, "Shop not found"⟩, [])) ∧
    (∀ shop, db.get_shop sid = some shop → shop.status ≠ ShopStatus.approved →
      create_order db cid uuids oid ⟨sid, items, dt, da, cn⟩
        = (.error ⟨404, "Shop not found"⟩, [])) ∧
    (∀ shop, db.get_shop sid = some shop → shop.status = ShopStatus.approved →
      shop.accepting_orders = false →
      create_order db cid uuids oid ⟨sid, items, dt, da, cn⟩
        = (.error ⟨400, "Shop is not accepting orders"⟩, [])) :=
  ⟨fun h => create_order_shop_missing h cid uuids oid,
   fun _ h hst => create_order_shop_unapproved h hst cid uuids oid,
   fun _ h hst hacc => create_order_shop_closed h hst hacc cid uuids oid⟩

/-- Claim C7 witness: a pending-approval shop rejects a nonempty cart with
the shop error and no store write. -/
theorem C7_witness :
    exDBShops.get_shop "s2" = some exShopPending ∧
    create_order exDBShops "cust1" exUuids "ORDX0000001"
        ⟨"s2", [⟨"p1", "v1", 1⟩], DeliveryType.delivery, none, none⟩
      = (.error ⟨404, "Shop not found"⟩, []) :=
  ⟨by decide,
   (C7_shop_check_first exDBShops "cust1" exUuids "ORDX0000001" "s2"
      [⟨"p1", "v1", 1⟩] DeliveryType.delivery none none).2.1
     exShopPending (by decide) (by decide)⟩

/-- Claim C5: a cart line referencing a missing product or a missing variant
fails the call with the ItemNotFound error naming that exact reference, even
when every other line of the cart is valid, and nothing is written. -/
theorem C5_item_not_found_exact_reference (db : DB) (cid : String)
    (uuids : ℕ → String) (oid : String) (req : OrderCreate)
    (pre : List CartItem) (c : CartItem) (post : List CartItem)
    (hshop : shopOrderable db req.shop_id = true)
    (hsplit : req.items = pre ++ c :: post)
    (hothers : ∀ c' ∈ pre ++ post, lineOk db c' = true) :
    (db.get_product c.product_id = none →
      create_order db cid uuids oid req
        = (.error ⟨404, "Product " ++ c.product_id ++ " not found"⟩, [])) ∧
    (∀ p, db.get_product c.product_id = some p →
      p.variants.find? (fun w => w.variant_id == c.variant_id) = none →
      create_order db cid uuids oid req
        = (.error ⟨404, "Variant " ++ c.variant_id ++ " not found"⟩, [])) := by
  obtain ⟨shop, hs, hst, hacc⟩ := shopOrderable_elim hshop
  have hpre : ∀ c' ∈ pre, lineOk db c' = true :=
    fun c' hc' => hothers c' (List.mem_append_left _ hc')
  constructor
  · intro h
    refine create_order_items_error hs hst hacc ?_ cid oid
    rw [hsplit]
    exact processItems_skip pre hpre
      (fun i => processItems_error_head (processItem_error_product h) i) 0
  · intro p hp hv
    refine create_order_items_error hs hst hacc ?_ cid oid
    rw [hsplit]
    exact processItems_skip pre hpre
      (fun i => processItems_error_head (fun u => processItem_error_variant hp hv u) i) 0

/-- Claim C5 witness: a two-line cart whose first line is valid and whose
second line names the nonexistent product `p9` fails with the error naming
`p9`, with no store write. -/
theorem C5_witness :
    create_order exDB "cust1" exUuids "ORDMISSING" exReqMissing
      = (.error ⟨404, "Product " ++ "p9" ++ " not found"⟩, []) :=
  (C5_item_not_found_exact_reference exDB "cust1" exUuids "ORDMISSING"
      exReqMissing [⟨"p1", "v1", 1⟩] ⟨"p9", "v1", 1⟩ []
      (by decide) (by decide) (by decide)).1 (by decide)

/-- Claim C4 counterexample: the insufficient-stock error does not carry the
requested or the available quantity — two runs with different requested and
available quantities (6 of 5 in one store state, 7 of 2 in another) produce
the very same error value, so neither quantity can be recovered from it. -/
theorem C4_error_lacks_quantities :
    (create_order exDB5 "cust1" exUuids "ORDQ6000001" exReq6).1
      = .error ⟨400, "Insufficient stock for " ++ "Apples"⟩ ∧
    (create_order exDB2 "cust1" exUuids "ORDQ7000001" exReq7).1
      = .error ⟨400, "Insufficient stock for " ++ "Apples"⟩ ∧
    (create_order exDB5 "cust1" exUuids "ORDQ6000001" exReq6).1
      = (create_order exDB2 "cust1" exUuids "ORDQ7000001" exReq7).1 := by
  have hs5 : exDB5.get_shop exReq6.shop_id = some exShop := by decide
  have hs2 : exDB2.get_shop exReq7.shop_id = some exShop := by decide
  have hst : exShop.status = ShopStatus.approved := by decide
  have hacc : exShop.accepting_orders = true := by decide
  have hp5 : exDB5.get_product "p1" = some exProduct5 := by decide
  have hp2 : exDB2.get_product "p1" = some exProduct2 := by decide
  have hv5 : exProduct5.variants.find? (fun w => w.variant_id == "v1")
      = some exVariant5 := by decide
  have hv2 : exProduct2.variants.find? (fun w => w.variant_id == "v1")
      = some ⟨"v1", "1kg", 120, 2⟩ := by decide
  have h6 : create_order exDB5 "cust1" exUuids "ORDQ6000001" exReq6
      = (.error ⟨400, "Insufficient stock for " ++ exProduct5.name⟩, []) :=
    create_order_items_error hs5 hst hacc
      (processItems_error_head
        (fun u => processItem_error_stock hp5 hv5 (by decide) u) 0)
      "cust1" "ORDQ6000001"
  have h7 : create_order exDB2 "cust1" exUuids "ORDQ7000001" exReq7
      = (.error ⟨400, "Insufficient stock for " ++ exProduct2.name⟩, []) :=
    create_order_items_error hs2 hst hacc
      (processItems_error_head
        (fun u => processItem_error_stock hp2 hv2 (by decide) u) 0)
      "cust1" "ORDQ7000001"
  rw [h6, h7]
  exact ⟨rfl, rfl, rfl⟩

/-- Claim C4 as amended: a cart line whose requested quantity exceeds the
resolved variant's stock fails the call (the shop being orderable and the
earlier lines valid) with the InsufficientStock error carrying the product
name — and only the product name. -/
theorem C4_insufficient_stock_reports_name (db : DB) (cid : String)
    (uuids : ℕ → String) (oid : String) (req : OrderCreate)
    (pre : List CartItem) (c : CartItem) (post : List CartItem)
    (p : Product) (v : ProductVariant)
    (hshop : shopOrderable db req.shop_id = true)
    (hsplit : req.items = pre ++ c :: post)
    (hpre : ∀ c' ∈ pre, lineOk db c' = true)
    (hp : db.get_product c.product_id = some p)
    (hv : p.variants.find? (fun w => w.variant_id == c.variant_id) = some v)
    (hq : v.stock_quantity < c.quantity) :
    create_order db cid uuids oid req
      = (.error ⟨400, "Insufficient stock for " ++ p.name⟩, []) := by
  obtain ⟨shop, hs, hst, hacc⟩ := shopOrderable_elim hshop
  refine create_order_items_error hs hst hacc ?_ cid oid
  rw [hsplit]
  exact processItems_skip pre hpre
    (fun i => processItems_error_head (fun u => processItem_error_stock hp hv hq u) i) 0

/-- Claim C4 witness: the spec's own example — stock 5, requested 6 — is
rejected with the error carrying the product name. -/
theorem C4_witness :
    exVariant5.stock_quantity = 5 ∧
    create_order exDB5 "cust1" exUuids "ORDQ6000002" exReq6
      = (.error ⟨400, "Insufficient stock for " ++ exProduct5.name⟩, []) :=
  ⟨rfl,
   C4_insufficient_stock_reports_name exDB5 "cust1" exUuids "ORDQ6000002" exReq6
     [] ⟨"p1", "v1", 6⟩ [] exProduct5 exVariant5
     (by decide) (by decide) (by decide) (by decide) (by decide) (by decide)⟩

/-- Claim C9: the code has no atomic check-and-decrement — the catalog is
never written during order creation, so running the two submissions one
after the other (one possible interleaving of the two concurrent requests)
lets both succeed against the same stored stock of 5 although together they
take 6. -/
theorem C9_sequential_oversell_both_succeed :
    create_order exDB5 "custA" exUuids "ORDA000001" exReq3
      = (.ok exOrder3A, [exOrder3A]) ∧
    create_order exDB5 "custB" exUuids "ORDB000001" exReq3
      = (.ok exOrder3B, [exOrder3B]) ∧
    exDB5.get_variant "p1" "v1" = some exVariant5 ∧
    exVariant5.stock_quantity < 3 + 3 := by
  have hs : exDB5.get_shop "s1" = some exShop := by decide
  have hp : exDB5.get_product "p1" = some exProduct5 := by decide
  have hv : exProduct5.variants.find? (fun v => v.variant_id == "v1")
      = some exVariant5 := by decide
  refine ⟨?_, ?_, by decide, by decide⟩
  · norm_num [create_order, buildOrderAggregate, processItems, processItem,
      hs, hp, hv, exShop, exProduct5, exVariant5, exReq3, exUuids, exOrder3A]
    decide
  · norm_num [create_order, buildOrderAggregate, processItems, processItem,
      hs, hp, hv, exShop, exProduct5, exVariant5, exReq3, exUuids, exOrder3B]
    decide

/-- Claim C10: stock sufficiency is checked per line against the full stored
stock and stock is never decremented, so a cart with two lines for the same
variant — each within stock 5 but summing to 6 — is accepted and the order
is persisted. -/
theorem C10_duplicate_variant_oversell_succeeds :
    create_order exDB5 "cust1" exUuids "ORDDUP0001" exReqDup
      = (.ok exOrderDup, [exOrderDup]) ∧
    exDB5.get_variant "p1" "v1" = some exVariant5 ∧
    exVariant5.stock_quantity < 3 + 3 := by
  have hs : exDB5.get_shop "s1" = some exShop := by decide
  have hp : exDB5.get_product "p1" = some exProduct5 := by decide
  have hv : exProduct5.variants.find? (fun v => v.variant_id == "v1")
      = some exVariant5 := by decide
  refine ⟨?_, by decide, by decide⟩
  norm_num [create_order, buildOrderAggregate, processItems, processItem,
    hs, hp, hv, exShop, exProduct5, exVariant5, exReqDup, exUuids, exOrderDup]
  decide

end Marketplace
